import Mathlib

/-!
Verification development for the GRC news assistant pipeline
(source: GRCnewsAssistant.py).

The pipeline is embedded shallowly:

* pure data mapping (search-result normalization, validity filtering,
  rated-record assembly) becomes pure Lean functions over structures of
  strings and lists;
* the filesystem state touched by the CSV writers is passed explicitly
  (a file is an optional list of rows, a row is a list of cells; the
  option distinguishes an absent file from an existing one);
* calls into external collaborators (the network fetch, the page
  fetch/parse/NLP library, the child processes used by the analysis
  client) are modelled by oracles that state, for each call site, whether
  the call succeeds or raises, mirroring the interface the specification
  gives for those collaborators;
* a Python value that may be None or empty is modelled by the empty
  string or empty list, since every code path in the source distinguishes
  values only by truthiness, and the csv writer renders None and the
  empty string identically.
-/

namespace GRCnews

/-- One normalized search-result record, as built by search_news:
date stamped at search time, the keyword that produced it, and the
headline, description and url copied from the result item. A field whose
value in the Python dict is None or empty is modelled by the empty
string, since the source only ever tests these fields for truthiness. -/
structure Article where
  date : String
  keyword : String
  headline : String
  description : String
  url : String
deriving DecidableEq, Repr

/-- The validity test applied by save_to_csv, line 129 of the source:
all five fields are truthy, that is, non-empty. -/
def Article.isValid (a : Article) : Bool :=
  a.date != "" && a.keyword != "" && a.headline != "" && a.description != "" && a.url != ""

/-- Structured output of the external rating tool for one article, as
read back from the fabric output file. Each field is optional because
create_rated_csv reads every field with dict.get and a default. -/
structure Analysis where
  oneSentenceSummary : Option String
  labels : Option String
  rating : Option String
  ratingExplanation : Option (List String)
  qualityScore : Option String
  qualityScoreExplanation : Option (List String)
deriving DecidableEq, Repr

/-- One row of the rated dataset: the five article columns followed by
the six analysis-derived columns. -/
structure RatedRecord where
  date : String
  keyword : String
  title : String
  description : String
  url : String
  oneSentenceSummary : String
  labels : String
  rating : String
  ratingExplanation : String
  qualityScore : String
  qualityScoreExplanation : String
deriving DecidableEq, Repr

/-- The list join used for the explanation columns of the rated dataset,
lines 244 and 246 of the source. -/
def joinSemi (l : List String) : String :=
  String.intercalate "; " l

/-- The row create_rated_csv writes for one (article, analysis) pair
that passed its guard: analysis fields read with dict.get and defaults
when the analysis is present (lines 235 to 247), six empty strings when
it is absent (lines 250 to 257). -/
def ratedRow (a : Article) (an : Option Analysis) : RatedRecord :=
  match an with
  | some x =>
      { date := a.date
        keyword := a.keyword
        title := a.headline
        description := a.description
        url := a.url
        oneSentenceSummary := x.oneSentenceSummary.getD ""
        labels := x.labels.getD ""
        rating := x.rating.getD ""
        ratingExplanation := joinSemi (x.ratingExplanation.getD [])
        qualityScore := x.qualityScore.getD ""
        qualityScoreExplanation := joinSemi (x.qualityScoreExplanation.getD []) }
  | none =>
      { date := a.date
        keyword := a.keyword
        title := a.headline
        description := a.description
        url := a.url
        oneSentenceSummary := ""
        labels := ""
        rating := ""
        ratingExplanation := ""
        qualityScore := ""
        qualityScoreExplanation := "" }

/-- The data rows of grcdata_rated.csv produced by create_rated_csv,
lines 232 to 257 of the source: iterate over zip(articles, analyses) and
write a row exactly for the pairs whose article is truthy (always, for a
five-key dict) and has a truthy url. -/
def create_rated_csv (articles : List Article) (analyses : List (Option Analysis)) :
    List RatedRecord :=
  (articles.zip analyses).filterMap fun p =>
    if p.1.url != "" then some (ratedRow p.1 p.2) else none

/-- The header row save_to_csv writes when the destination does not yet
exist, line 123 of the source. -/
def csvHeader : List String :=
  ["date", "keyword", "title", "description", "url"]

/-- The row save_to_csv writes for one valid article, lines 130 to 136
of the source. -/
def articleRow (a : Article) : List String :=
  [a.date, a.keyword, a.headline, a.description, a.url]

/-- The rows present when save_to_csv starts appending: the prior
contents when the destination exists, otherwise the freshly written
header row (lines 120 to 123 of the source). -/
def baseRows (file : Option (List (List String))) : List (List String) :=
  match file with
  | none => [csvHeader]
  | some rows => rows

/-- save_to_csv, lines 116 to 138 of the source, as a transformation of
the destination file state: an absent file is initialized with the
header, then the rows of the valid articles are appended in input
order. -/
def save_to_csv (articles : List Article) (file : Option (List (List String))) :
    List (List String) :=
  baseRows file ++ (articles.filter Article.isValid).map articleRow

/-- save_urls, lines 140 to 150 of the source, as a transformation of
the destination file state: the file is opened for writing (truncated),
so the prior contents are discarded, and one row per article with a
truthy url is written in input order. -/
def save_urls (articles : List Article) (_prior : Option (List (List String))) :
    List (List String) :=
  (articles.filter (fun a => a.url != "")).map fun a => [a.url]

/-- Outcome of one call into an external collaborator: the call either
returns normally or raises an exception carrying a message. -/
inductive StepResult where
  | ok : StepResult
  | exc : String → StepResult
deriving DecidableEq, Repr

/-- Result of running a Python function viewed from its caller: either a
normal return value, or an exception that escaped the function. -/
inductive PyResult (α : Type) where
  | ok : α → PyResult α
  | raised : String → PyResult α
deriving DecidableEq, Repr

/-- What the newspaper library exposes on the Article object after
download, parse and nlp have run: the raw parsed fields read by lines
161 to 166 of the source. An absent or empty scalar is the empty
string; publish_date carries the ISO-8601 serialization of the date when
one was parsed. -/
structure ParsedArticle where
  title : String
  keywords : List String
  authors : List String
  summary : String
  text : String
  publish_date : Option String
deriving DecidableEq, Repr

/-- The fixed-shape record returned by extract_article_content on
success, lines 160 to 168 of the source. -/
structure ExtractedContent where
  title : String
  keywords : List String
  authors : List String
  summary : String
  text : String
  publish_date : String
  url : String
deriving DecidableEq, Repr

/-- The field defaulting performed by extract_article_content, lines 160
to 168 of the source: `x or sentinel` on the scalar fields,
`x if x else []` on keywords, `x if x else [sentinel]` on authors, and
isoformat or sentinel on publish_date. -/
def extractFields (p : ParsedArticle) (url : String) : ExtractedContent :=
  { title := if p.title = "" then "Not Found" else p.title
    keywords := if p.keywords = [] then [] else p.keywords
    authors := if p.authors = [] then ["Not Found"] else p.authors
    summary := if p.summary = "" then "Not Found" else p.summary
    text := if p.text = "" then "Not Found" else p.text
    publish_date := match p.publish_date with
      | some d => d
      | none => "Not Found"
    url := url }

/-- Behaviour of the newspaper collaborator for one url: whether each of
the four calls the source makes into it (the Article constructor on line
154, then download, parse and nlp on lines 156 to 158) returns or
raises, and the parsed fields exposed when all of them return. -/
structure ExtractOracle where
  init : StepResult
  download : StepResult
  parse : StepResult
  nlp : StepResult
  parsed : ParsedArticle
deriving DecidableEq, Repr

/-- Observable outcome of one call to extract_article_content: the value
returned to the caller (or the exception that escaped), together with
the (url, cause) pairs passed to logger.error. -/
structure ExtractRun where
  result : PyResult (Option ExtractedContent)
  logged : List (String × String)
deriving DecidableEq, Repr

/-- extract_article_content, lines 152 to 171 of the source. The
constructor call on line 154 stands before the try block, so an
exception raised there escapes; an exception from download, parse or nlp
is caught by the handler on line 169, which logs the url and the cause
and returns None. -/
def extract_article_content (o : ExtractOracle) (url : String) : ExtractRun :=
  match o.init with
  | .exc m => { result := .raised m, logged := [] }
  | .ok =>
    match o.download with
    | .exc m => { result := .ok none, logged := [(url, m)] }
    | .ok =>
      match o.parse with
      | .exc m => { result := .ok none, logged := [(url, m)] }
      | .ok =>
        match o.nlp with
        | .exc m => { result := .ok none, logged := [(url, m)] }
        | .ok => { result := .ok (some (extractFields o.parsed url)), logged := [] }

/-- The plain-text block analyze_with_fabric stages for the external
tool, lines 178 to 184 of the source. -/
def fabricInput (c : ExtractedContent) : String :=
  "Title: " ++ c.title ++ "\n" ++
  "Authors: " ++ String.intercalate ", " c.authors ++ "\n" ++
  "Keywords: " ++ String.intercalate ", " c.keywords ++ "\n" ++
  "Summary: " ++ c.summary ++ "\n" ++
  "URL: " ++ c.url ++ "\n"

/-- Symbolic name of the temporary input file analyze_with_fabric
creates with delete set to False on line 177. -/
def tempInputFile : String := "temp_input.txt"

/-- Symbolic name of the temporary output file analyze_with_fabric
creates with delete set to False on line 195. -/
def tempOutputFile : String := "temp_output.md"

/-- Behaviour of the external collaborators of analyze_with_fabric:
whether the clipboard copy subprocess (line 190), the fabric command
(line 201, which also raises on its 15 second timeout), and the read
plus JSON parse of the output file (lines 204 to 205) return or raise,
and the parsed analysis when everything returns. -/
structure FabricOracle where
  clipboardCopy : StepResult
  fabricRun : StepResult
  readAndParse : StepResult
  fabricData : Analysis
deriving DecidableEq, Repr

/-- Observable outcome of one call to analyze_with_fabric: the returned
analysis (None on any caught failure), the text staged for the tool, and
the transient files still existing when the call returns. -/
structure FabricRun where
  result : Option Analysis
  staged : String
  remainingFiles : List String
deriving DecidableEq, Repr

/-- analyze_with_fabric, lines 173 to 214 of the source. The input file
is created (delete False) and written first; the output file is created
(delete False) just before the fabric command runs; os.unlink is called
on both only at the end of the try block (lines 208 to 209), so any
exception caught by the handler on line 212 leaves the files created so
far on disk. -/
def analyze_with_fabric (content : ExtractedContent) (o : FabricOracle) : FabricRun :=
  match o.clipboardCopy with
  | .exc _ =>
      { result := none, staged := fabricInput content
        remainingFiles := [tempInputFile] }
  | .ok =>
    match o.fabricRun with
    | .exc _ =>
        { result := none, staged := fabricInput content
          remainingFiles := [tempInputFile, tempOutputFile] }
    | .ok =>
      match o.readAndParse with
      | .exc _ =>
          { result := none, staged := fabricInput content
            remainingFiles := [tempInputFile, tempOutputFile] }
      | .ok =>
          { result := some o.fabricData, staged := fabricInput content
            remainingFiles := [] }

/-- One item of the results array of a search response. A field is none
when the key is absent from the JSON object (so that the subscript
access on lines 104 to 106 raises KeyError), and some s when the key is
present; a JSON null value is modelled as some of the empty string,
since every later use tests only truthiness. -/
structure ResultItem where
  title : Option String
  description : Option String
  link : Option String
deriving DecidableEq, Repr

/-- A search response as seen by search_news: the request or the JSON
decode raised; or the decoded body carried a non-success status; or it
carried a success status and a results array. -/
inductive ApiResponse where
  | exc : String → ApiResponse
  | apiError : ApiResponse
  | success : List ResultItem → ApiResponse
deriving DecidableEq, Repr

/-- The article dict built for one result item by lines 101 to 107 of
the source. The subscript accesses raise KeyError (none here) when a key
is absent. -/
def mkArticle (today keyword : String) (r : ResultItem) : Option Article :=
  match r.title, r.description, r.link with
  | some t, some d, some l =>
      some { date := today, keyword := keyword, headline := t, description := d, url := l }
  | _, _, _ => none

/-- The result mapping loop of search_news, lines 99 to 108 of the
source: items are mapped in order, and a KeyError on any item aborts the
whole loop (none). -/
def mapResults (today keyword : String) : List ResultItem → Option (List Article)
  | [] => some []
  | r :: rs =>
    match mkArticle today keyword r with
    | none => none
    | some a => (mapResults today keyword rs).map fun as => a :: as

/-- search_news, lines 91 to 114 of the source: an exception from the
request or the JSON decode is caught and yields the empty list; a
non-success status yields the empty list; on success the results are
mapped in order, and a KeyError raised by a malformed item is caught by
the same handler, discarding the partially built list and yielding the
empty list. -/
def search_news (today keyword : String) (resp : ApiResponse) : List Article :=
  match resp with
  | .exc _ => []
  | .apiError => []
  | .success results =>
    match mapResults today keyword results with
    | none => []
    | some articles => articles

/-- The extraction and analysis loop of main, lines 296 to 309 of the
source: for each collected article, extract content from its url; if a
content dict came back (a non-empty dict is truthy), run the analysis
and append its result (possibly None); otherwise append None. The
collaborators are abstracted as functions from url to optional content
and from content to optional analysis. -/
def process_articles (extract : String → Option ExtractedContent)
    (analyze : ExtractedContent → Option Analysis) : List Article → List (Option Analysis)
  | [] => []
  | article :: rest =>
    (match extract article.url with
     | some content => analyze content
     | none => none) :: process_articles extract analyze rest

/-- A concrete valid article used by witnesses. -/
def sampleArticle : Article :=
  { date := "2026-10-12", keyword := "grc", headline := "Headline"
    description := "Desc", url := "http://u" }

/-- A concrete article with a url but an empty headline: it has a url
yet fails the five-field validity test. -/
def invalidArticle : Article :=
  { date := "2026-10-12", keyword := "grc", headline := ""
    description := "Desc", url := "http://u" }

/-- A concrete parsed article used by witnesses. -/
def sampleParsed : ParsedArticle :=
  { title := "T", keywords := ["k1"], authors := ["A"], summary := "S"
    text := "X", publish_date := some "2026-01-01T00:00:00" }

/-- A parsed article every field of which came back empty. -/
def emptyParsed : ParsedArticle :=
  { title := "", keywords := [], authors := [], summary := ""
    text := "", publish_date := none }

/-- A concrete url used by witnesses. -/
def sampleUrl : String := "http://u"

/-- A concrete extracted content record used by the analysis client
model. -/
def sampleContent : ExtractedContent :=
  { title := "T", keywords := ["k1"], authors := ["A"], summary := "S"
    text := "X", publish_date := "2026-01-01T00:00:00", url := "http://u" }

/-- An analysis record with every field absent. -/
def emptyAnalysis : Analysis :=
  { oneSentenceSummary := none, labels := none, rating := none
    ratingExplanation := none, qualityScore := none
    qualityScoreExplanation := none }

/-- A concrete well-formed search result item. -/
def sampleItem : ResultItem :=
  { title := some "T", description := some "D", link := some "L" }

/-- A newspaper oracle whose download call raises, used by the
no-raise witness. -/
def downloadFailOracle : ExtractOracle :=
  { init := .ok, download := .exc "net", parse := .ok, nlp := .ok
    parsed := sampleParsed }

/-- A filterMap whose function is a guarded map equals filtering then
mapping. -/
theorem filterMap_guard_eq {α β : Type} (c : α → Bool) (f : α → β) (l : List α) :
    (l.filterMap fun x => if c x then some (f x) else none) = (l.filter c).map f := by
  induction l with
  | nil => rfl
  | cons x xs ih =>
    cases h : c x <;> simp [List.filterMap_cons, List.filter_cons, h, ih]

/-- Claim C1 counterexample: an article with a non-empty url but an
empty headline is invalid (missing a required field), yet
create_rated_csv does not skip it: the pair yields a record, so with one
such article the rated set has length one while the claim requires the
pair to be skipped and equality of lengths to hold only when no article
is invalid. -/
theorem create_rated_csv_emits_invalid_article :
    Article.isValid invalidArticle = false ∧
    (create_rated_csv [invalidArticle] [(none : Option Analysis)]).length = 1 := by
  decide

/-- Claim C1 (amended): with equal-length inputs, create_rated_csv
skips a pair exactly when the article has an empty url; the five-field
validity of the article is not checked. Hence the rated set is the
url-passing pairs mapped to rows in input order, its length is at most
the number of articles, and equality holds exactly when every article
has a non-empty url. -/
theorem create_rated_csv_join (articles : List Article) (analyses : List (Option Analysis))
    (h : articles.length = analyses.length) :
    create_rated_csv articles analyses =
      ((articles.zip analyses).filter (fun p => p.1.url != "")).map
        (fun p => ratedRow p.1 p.2) ∧
    (create_rated_csv articles analyses).length ≤ articles.length ∧
    ((create_rated_csv articles analyses).length = articles.length ↔
      ∀ a ∈ articles, a.url ≠ "") := by
  have hchar : create_rated_csv articles analyses =
      ((articles.zip analyses).filter (fun p => p.1.url != "")).map
        (fun p => ratedRow p.1 p.2) := filterMap_guard_eq _ _ _
  have hzlen : (articles.zip analyses).length = articles.length := by
    rw [List.length_zip]; omega
  refine ⟨hchar, ?_, ?_⟩
  · rw [hchar, List.length_map]
    calc ((articles.zip analyses).filter (fun p => p.1.url != "")).length ≤
        (articles.zip analyses).length := List.length_filter_le _ _
      _ = articles.length := hzlen
  · rw [hchar, List.length_map]
    constructor
    · intro hlen a ha
      have hfe : (articles.zip analyses).filter (fun p => p.1.url != "") =
          articles.zip analyses :=
        (List.filter_sublist _).eq_of_length (by rw [hlen, hzlen])
      have hall := List.filter_eq_self.mp hfe
      have hmf : (articles.zip analyses).map Prod.fst = articles :=
        List.map_fst_zip _ _ (le_of_eq h)
      rw [← hmf] at ha
      obtain ⟨p, hp, hpa⟩ := List.mem_map.mp ha
      have hpred := hall p hp
      rw [← hpa]
      simpa using hpred
    · intro hall
      have hfe : (articles.zip analyses).filter (fun p => p.1.url != "") =
          articles.zip analyses := by
        refine List.filter_eq_self.mpr ?_
        intro p hp
        obtain ⟨a, an⟩ := p
        have h1 : a ∈ articles := (List.of_mem_zip hp).1
        simpa using hall a h1
      rw [hfe, hzlen]

/-- Claim C1 witness: the amended join law at one valid article paired
with an absent analysis. -/
theorem create_rated_csv_join_witness :
    create_rated_csv [sampleArticle] [(none : Option Analysis)] =
      ((([sampleArticle] : List Article).zip [(none : Option Analysis)]).filter
        (fun p => p.1.url != "")).map (fun p => ratedRow p.1 p.2) ∧
    (create_rated_csv [sampleArticle] [(none : Option Analysis)]).length ≤
      ([sampleArticle] : List Article).length ∧
    ((create_rated_csv [sampleArticle] [(none : Option Analysis)]).length =
        ([sampleArticle] : List Article).length ↔
      ∀ a ∈ ([sampleArticle] : List Article), a.url ≠ "") :=
  create_rated_csv_join [sampleArticle] [none] rfl

/-- Claim C3 (confirmed): a pair of a valid article and an absent
analysis yields a rated record whose five article columns are copied
from the article and whose six analysis columns are all the empty
string; the article is not dropped for lack of analysis. -/
theorem create_rated_csv_absent_analysis (articles : List Article)
    (analyses : List (Option Analysis)) (a : Article)
    (hmem : (a, (none : Option Analysis)) ∈ articles.zip analyses)
    (hv : a.isValid = true) :
    ({ date := a.date, keyword := a.keyword, title := a.headline,
       description := a.description, url := a.url, oneSentenceSummary := "",
       labels := "", rating := "", ratingExplanation := "",
       qualityScore := "", qualityScoreExplanation := "" } : RatedRecord) ∈
      create_rated_csv articles analyses := by
  have hurl : ((a, (none : Option Analysis)).1.url != "") = true := by
    simp only [Article.isValid, Bool.and_eq_true] at hv
    exact hv.2
  refine List.mem_filterMap.mpr ⟨(a, none), hmem, ?_⟩
  rw [if_pos hurl]
  rfl

/-- Claim C3 witness: the absent-analysis record for the sample valid
article is in the rated set. -/
theorem create_rated_csv_absent_analysis_witness :
    ({ date := sampleArticle.date, keyword := sampleArticle.keyword,
       title := sampleArticle.headline, description := sampleArticle.description,
       url := sampleArticle.url, oneSentenceSummary := "",
       labels := "", rating := "", ratingExplanation := "",
       qualityScore := "", qualityScoreExplanation := "" } : RatedRecord) ∈
      create_rated_csv [sampleArticle] [(none : Option Analysis)] :=
  create_rated_csv_absent_analysis [sampleArticle] [none] sampleArticle
    (by decide) (by decide)

/-- Claim C2 counterexample: an article with a url but an empty headline
is invalid, yet save_urls writes its url: the URL list is not restricted
to valid articles. -/
theorem save_urls_includes_invalid_article :
    Article.isValid invalidArticle = false ∧
    save_urls [invalidArticle] none = [["http://u"]] := by
  decide

/-- Claim C2 (amended): an article missing any of the five required
fields is excluded from the article dataset (save_to_csv appends
exactly the rows of the valid articles), but the URL list written by
save_urls contains one url per article with a non-empty url, in input
order, whether or not the article is valid. -/
theorem article_store_validity_filter (articles : List Article)
    (file : Option (List (List String))) (a : Article)
    (hinv : a.isValid = false) :
    save_to_csv articles file =
      baseRows file ++ (articles.filter Article.isValid).map articleRow ∧
    articleRow a ∉ (articles.filter Article.isValid).map articleRow ∧
    save_urls articles file =
      (articles.filter (fun x => x.url != "")).map (fun x => [x.url]) := by
  refine ⟨rfl, ?_, rfl⟩
  intro hmem
  obtain ⟨b, hb, hrow⟩ := List.mem_map.mp hmem
  have hba : b = a := by
    cases a
    cases b
    simp only [articleRow, List.cons.injEq, and_true] at hrow
    simp_all
  rw [hba] at hb
  have hv := (List.mem_filter.mp hb).2
  rw [hinv] at hv
  exact Bool.noConfusion hv

/-- Claim C2 witness: the amended store law at one invalid article. -/
theorem article_store_validity_filter_witness :
    save_to_csv [invalidArticle] none =
      baseRows none ++ (([invalidArticle] : List Article).filter Article.isValid).map articleRow ∧
    articleRow invalidArticle ∉
      (([invalidArticle] : List Article).filter Article.isValid).map articleRow ∧
    save_urls [invalidArticle] none =
      (([invalidArticle] : List Article).filter (fun x => x.url != "")).map
        (fun x => [x.url]) :=
  article_store_validity_filter [invalidArticle] none invalidArticle (by decide)

/-- Claim C7 (confirmed): save_to_csv writes the fixed five-column
header exactly when the destination does not exist, appends exactly the
valid articles in input order after the existing rows, and running it
twice yields one header followed by the valid rows of both inputs. -/
theorem save_to_csv_append_law (articles : List Article) :
    save_to_csv articles none =
      csvHeader :: (articles.filter Article.isValid).map articleRow ∧
    (∀ rows, save_to_csv articles (some rows) =
      rows ++ (articles.filter Article.isValid).map articleRow) ∧
    (∀ bs : List Article, save_to_csv bs (some (save_to_csv articles none)) =
      csvHeader :: ((articles.filter Article.isValid).map articleRow ++
        (bs.filter Article.isValid).map articleRow)) := by
  refine ⟨rfl, fun rows => rfl, fun bs => ?_⟩
  simp [save_to_csv, baseRows]

/-- Claim C9 (confirmed): save_urls has overwrite semantics, so it is
idempotent: a second call on the result of a first call leaves exactly
the content of a single call, and the result never depends on the prior
file state. -/
theorem save_urls_idempotent (articles : List Article)
    (file : Option (List (List String))) :
    save_urls articles (some (save_urls articles file)) = save_urls articles file ∧
    save_urls articles file = save_urls articles none :=
  ⟨rfl, rfl⟩

/-- Claim C4 counterexample: when the parse yields no authors, the
authors field of the returned record is the one-element list holding the
sentinel string, not the empty sequence the claim requires for
list-valued fields. -/
theorem extractFields_authors_not_empty :
    emptyParsed.authors = ([] : List String) ∧
    (extractFields emptyParsed sampleUrl).authors = ["Not Found"] ∧
    (extractFields emptyParsed sampleUrl).authors ≠ ([] : List String) := by
  decide

/-- Claim C4 (amended): on a successful extraction every scalar field
that parsed to nothing is the sentinel, keywords is passed through (so
an empty parse gives the empty sequence), authors defaults to the
one-element list holding the sentinel, publish_date is the ISO-8601
serialization when a date was parsed and the sentinel otherwise, and the
url field is the input url; the record shape is fixed, so no field is
absent. -/
theorem extractFields_defaults (p : ParsedArticle) (url : String) :
    (p.title = "" → (extractFields p url).title = "Not Found") ∧
    (extractFields p url).keywords = p.keywords ∧
    (p.authors = [] → (extractFields p url).authors = ["Not Found"]) ∧
    (p.summary = "" → (extractFields p url).summary = "Not Found") ∧
    (p.text = "" → (extractFields p url).text = "Not Found") ∧
    (∀ d, p.publish_date = some d → (extractFields p url).publish_date = d) ∧
    (p.publish_date = none → (extractFields p url).publish_date = "Not Found") ∧
    (extractFields p url).url = url := by
  refine ⟨fun h => by simp [extractFields, h], ?_,
    fun h => by simp [extractFields, h],
    fun h => by simp [extractFields, h],
    fun h => by simp [extractFields, h],
    fun d h => by simp [extractFields, h],
    fun h => by simp [extractFields, h], rfl⟩
  simp only [extractFields]
  split <;> simp_all

/-- Claim C4 witness: the defaults evaluated on a parse that yielded
nothing. -/
theorem extractFields_defaults_witness :
    (extractFields emptyParsed sampleUrl).title = "Not Found" ∧
    (extractFields emptyParsed sampleUrl).keywords = ([] : List String) :=
  ⟨(extractFields_defaults emptyParsed sampleUrl).1 rfl,
   ((extractFields_defaults emptyParsed sampleUrl).2.1).trans rfl⟩

/-- Claim C5 (code bug): when the fabric command raises, for example on
its 15 second timeout, analyze_with_fabric returns None but both
transient staging files are left on disk, because os.unlink is reached
only at the end of the try block on the success path. -/
theorem analyze_with_fabric_leaks_on_timeout :
    (analyze_with_fabric sampleContent
      { clipboardCopy := .ok, fabricRun := .exc "timeout", readAndParse := .ok,
        fabricData := emptyAnalysis }).result = none ∧
    (analyze_with_fabric sampleContent
      { clipboardCopy := .ok, fabricRun := .exc "timeout", readAndParse := .ok,
        fabricData := emptyAnalysis }).remainingFiles =
      [tempInputFile, tempOutputFile] ∧
    [tempInputFile, tempOutputFile] ≠ ([] : List String) := by
  refine ⟨rfl, rfl, by decide⟩

/-- Claim C6 counterexample: the Article constructor call on line 154
stands before the try block, so when that collaborator call fails the
exception escapes extract_article_content instead of being turned into
an absent result. -/
theorem extract_article_content_raises :
    (extract_article_content
      { init := .exc "bad url", download := .ok, parse := .ok, nlp := .ok,
        parsed := sampleParsed } sampleUrl).result = PyResult.raised "bad url" :=
  rfl

/-- Claim C6 (amended): provided the Article constructor call returns,
extract_article_content never lets an exception escape; whichever of
download, parse or nlp is the first to raise, the function returns None
and logs the url together with the message of that exception; and when
all three return, the function returns the extracted content. -/
theorem extract_article_content_no_raise (o : ExtractOracle) (url : String)
    (h : o.init = StepResult.ok) :
    (∀ m, (extract_article_content o url).result ≠ PyResult.raised m) ∧
    (∀ m, o.download = StepResult.exc m →
      extract_article_content o url =
        { result := PyResult.ok none, logged := [(url, m)] }) ∧
    (∀ m, o.download = StepResult.ok → o.parse = StepResult.exc m →
      extract_article_content o url =
        { result := PyResult.ok none, logged := [(url, m)] }) ∧
    (∀ m, o.download = StepResult.ok → o.parse = StepResult.ok →
      o.nlp = StepResult.exc m →
      extract_article_content o url =
        { result := PyResult.ok none, logged := [(url, m)] }) ∧
    (o.download = StepResult.ok → o.parse = StepResult.ok →
      o.nlp = StepResult.ok →
      (extract_article_content o url).result =
        PyResult.ok (some (extractFields o.parsed url))) := by
  obtain ⟨i, d, p, n, parsed⟩ := o
  have h2 : i = StepResult.ok := h
  subst h2
  cases d <;> cases p <;> cases n <;>
    simp [extract_article_content]

/-- Claim C6 witness: the amended guarantee at an oracle whose download
call fails: the result is None, the url is logged with the cause, and
no exception escapes. -/
theorem extract_article_content_no_raise_witness :
    extract_article_content downloadFailOracle sampleUrl =
      { result := PyResult.ok none, logged := [(sampleUrl, "net")] } :=
  (extract_article_content_no_raise downloadFailOracle sampleUrl rfl).2.1 "net" rfl

/-- Claim C8 counterexample: a success response whose second item lacks
the title key makes the mapping loop raise KeyError, which the handler
turns into the empty list: the malformed item is not mapped to an
article, and the well-formed first item of the same response is not
returned either. -/
theorem search_news_drops_whole_response :
    search_news "2026-10-12" "grc"
      (ApiResponse.success
        [{ title := some "T", description := some "D", link := some "L" },
         { title := none, description := some "D2", link := some "L2" }]) = [] :=
  rfl

/-- Claim C8 (amended): on a success response all of whose items carry
the title, description and link keys, search_news maps every item to an
article in order, stamping the run date and the keyword; items whose
values are empty or null are mapped like any other and left to later
validity filtering. An item missing one of the keys instead aborts the
whole response. -/
theorem search_news_maps_when_keys_present (today keyword : String)
    (results : List ResultItem)
    (h : ∀ r ∈ results, r.title.isSome ∧ r.description.isSome ∧ r.link.isSome) :
    search_news today keyword (ApiResponse.success results) =
      results.map fun r =>
        { date := today, keyword := keyword, headline := r.title.getD "",
          description := r.description.getD "", url := r.link.getD "" } := by
  suffices hmap : ∀ rs : List ResultItem,
      (∀ r ∈ rs, r.title.isSome ∧ r.description.isSome ∧ r.link.isSome) →
      mapResults today keyword rs = some (rs.map fun r =>
        ({ date := today, keyword := keyword, headline := r.title.getD "",
           description := r.description.getD "", url := r.link.getD "" } : Article)) by
    simp [search_news, hmap results h]
  intro rs
  induction rs with
  | nil => intro _; rfl
  | cons r rest ih =>
    intro hall
    obtain ⟨ht, hd, hl⟩ := hall r (by simp)
    obtain ⟨t, ht2⟩ := Option.isSome_iff_exists.mp ht
    obtain ⟨dv, hd2⟩ := Option.isSome_iff_exists.mp hd
    obtain ⟨lv, hl2⟩ := Option.isSome_iff_exists.mp hl
    have ihr := ih (fun x hx => hall x (List.mem_cons_of_mem _ hx))
    simp [mapResults, mkArticle, ht2, hd2, hl2, ihr]

/-- Claim C8 witness: the amended mapping at a one-item response. -/
theorem search_news_maps_when_keys_present_witness :
    search_news "2026-10-12" "grc" (ApiResponse.success [sampleItem]) =
      [sampleItem].map (fun r =>
        { date := "2026-10-12", keyword := "grc", headline := r.title.getD "",
          description := r.description.getD "", url := r.link.getD "" }) :=
  search_news_maps_when_keys_present "2026-10-12" "grc" [sampleItem] (by decide)

/-- Claim C10 (confirmed): the extraction and analysis loop of main
produces one entry per collected article, and the entry at each index is
the analysis outcome for the article at the same index: the analysis of
the extracted content when extraction succeeded, and None when
extraction or analysis failed. -/
theorem process_articles_positional (extract : String → Option ExtractedContent)
    (analyze : ExtractedContent → Option Analysis) (arts : List Article) :
    (process_articles extract analyze arts).length = arts.length ∧
    ∀ i : Nat, (process_articles extract analyze arts)[i]? =
      (arts[i]?).map fun a => (extract a.url).bind analyze := by
  constructor
  · induction arts with
    | nil => rfl
    | cons a as ih => simpa [process_articles] using ih
  · intro i
    induction arts generalizing i with
    | nil => simp [process_articles]
    | cons a as ih =>
      cases i with
      | zero =>
        simp only [process_articles, List.getElem?_cons_zero, Option.map_some]
        cases hx : extract a.url <;> simp [hx]
      | succ n =>
        simpa [process_articles] using ih n

end GRCnews
